import Mathlib

/-!
Shallow embedding of the download-orchestration core of Micro Downloader
(`src/main.py`).  The embedded functions mirror, statement by statement:

* `_update_quality_options` / `_get_format_string`  — the format selector;
* the flat-extraction block of `_download_video`     — unit resolution;
* `make_progress_hook`                               — progress normalization;
* the per-entry download loop and final-status block of `_download_video`
                                                     — the job driver;
* `_start_download` / `_stop_download` / `_reset_download_state`
                                                     — the control surface.

Python-specific behaviours (truthiness of `or`, `str.split()`, `str.replace`,
substring `in`, `dict.get` defaults) are embedded by small helper functions
named `py...` so that each line of the model can be diffed against the
corresponding Python line.
-/

namespace MicroDL

/-- Occurrence test for a character pattern anywhere in a character list. -/
def containsAux (pat : List Char) : List Char → Bool
  | [] => pat.isEmpty
  | c :: cs => pat.isPrefixOf (c :: cs) || containsAux pat cs

/-- Python `pat in s` (substring test). -/
def pySubstr (pat s : String) : Bool :=
  containsAux pat.toList s.toList

/-- Splitting a character list on whitespace runs, discarding empty parts;
`acc` holds the characters of the current part in reverse. -/
def splitWsAux : List Char → List Char → List (List Char)
  | [], [] => []
  | [], acc => [acc.reverse]
  | c :: cs, acc =>
    if c.isWhitespace then
      match acc with
      | [] => splitWsAux cs []
      | _ => acc.reverse :: splitWsAux cs []
    else splitWsAux cs (c :: acc)

/-- Python `s.split()` with no arguments: split on whitespace runs,
discarding empty parts. -/
def pySplit (s : String) : List String :=
  (splitWsAux s.toList []).map List.asString

/-- Removal of every (leftmost-first) occurrence of a nonempty character
pattern, with explicit fuel for structural termination; fuel at least the
length of the scanned list makes the scan exact. -/
def removeAux (pat : List Char) : Nat → List Char → List Char
  | _, [] => []
  | 0, l => l
  | fuel + 1, c :: cs =>
    if pat.isPrefixOf (c :: cs) then
      removeAux pat fuel (cs.drop (pat.length - 1))
    else
      c :: removeAux pat fuel cs

/-- Python `s.replace(pat, '')` for a nonempty `pat`: remove every
occurrence of `pat`, scanning left to right. -/
def pyRemove (s pat : String) : String :=
  (removeAux pat.toList s.toList.length s.toList).asString

/-- Python `s.strip()`: drop leading and trailing whitespace. -/
def pyStrip (s : String) : String :=
  (((s.toList.dropWhile Char.isWhitespace).reverse.dropWhile
      Char.isWhitespace).reverse).asString

/-- Whether `pat` is an initial segment of `s`. -/
def strStarts (pat s : String) : Bool :=
  pat.toList.isPrefixOf s.toList

/-- Python `a or b` on optional byte counts, as used in
`d.get('total_bytes') or d.get('total_bytes_estimate') or 0`:
`None` and `0` are falsy. -/
def pyOrNat (a : Option Nat) (b : Nat) : Nat :=
  match a with
  | some v => if v = 0 then b else v
  | none => b

/-- Python `a or b` on optional strings (`None` and `""` are falsy), as used
in `entry.get('url') or entry.get('webpage_url') or f"..."`. -/
def pyOrStr (a : Option String) (b : String) : String :=
  match a with
  | some v => if v = "" then b else v
  | none => b

/-- Python `str(x)` for an optional id interpolated in an f-string:
`None` renders as the literal text `None`. -/
def pyStrOfOptId (i : Option String) : String :=
  match i with
  | some s => s
  | none => "None"

/-! ## Format selector (`_update_quality_options`, `_get_format_string`) -/

/-- The video quality labels installed in the quality dropdown by
`_update_quality_options` when the format is "video". -/
def videoQualities : List String :=
  ["2160p (4K)", "1440p (2K)", "1080p (Full HD)",
   "720p (HD)", "480p", "360p", "240p", "144p"]

/-- The audio quality labels installed in the quality dropdown by
`_update_quality_options` when the format is "audio". -/
def audioQualities : List String :=
  ["320kbps (High)", "256kbps (Good)", "192kbps (Medium)", "128kbps (Low)"]

/-- `_get_format_string`: builds the yt-dlp format string from the selected
format type and quality label.  Python raises `IndexError` on
`split()[0]` when the label is all whitespace; that failure is `none`.
No other failure is possible: the label is never validated. -/
def getFormatString (format_type quality : String) : Option String :=
  if format_type = "video" then
    match pySplit quality with
    | [] => none
    | tok :: _ =>
      let resolution := pyRemove tok "p"
      some ("bestvideo[height<=" ++ resolution ++ "]+bestaudio/best[height<="
            ++ resolution ++ "]/bestvideo+bestaudio/best")
  else
    match pySplit quality with
    | [] => none
    | tok :: _ =>
      let bitrate := pyRemove tok "kbps"
      some ("bestaudio[abr<=" ++ bitrate ++ "]/bestaudio/best")

/-- Classify a produced yt-dlp format string by the media kind it selects:
the video branch of `_get_format_string` always emits a string beginning
`bestvideo[height<=`, the audio branch one beginning `bestaudio[abr<=`. -/
def constraintKind (f : String) : Option String :=
  if strStarts "bestvideo[height<=" f then some "video"
  else if strStarts "bestaudio[abr<=" f then some "audio"
  else none

/-! ## Unit resolution (flat-extraction block of `_download_video`) -/

/-- The fields of a backend info/entry dict that `_download_video` reads.
`none` stands for a missing key (or an explicit `None` value, which
`dict.get` treats the same way for the `or`-chains used here). -/
structure Entry where
  title : Option String
  url : Option String
  webpage_url : Option String
  id : Option String
deriving DecidableEq, Repr

/-- One element of `playlist_entries` as built by `_download_video`:
`{'title': ..., 'url': ..., 'id': ...}`. -/
structure PlaylistEntry where
  title : String
  url : String
  id : Option String
deriving DecidableEq, Repr

/-- Outcome of `ydl.extract_info(url, download=False)` in flat mode:
the call raises (`failure`), returns a falsy info object (`noInfo`),
returns a single-item info dict (`single`), or returns a dict with an
`entries` key (`playlist`); a `none` element of `entries` is an entry
that is falsy in Python (`if entry:` skips it). -/
inductive ExtractResult
  | failure
  | noInfo
  | single (info : Entry)
  | playlist (title : Option String) (entries : List (Option Entry))

/-- `entry.get('url') or entry.get('webpage_url') or
f"https://youtube.com/watch?v={entry.get('id')}"`. -/
def entrySourceRef (e : Entry) : String :=
  pyOrStr e.url
    (pyOrStr e.webpage_url ("https://youtube.com/watch?v=" ++ pyStrOfOptId e.id))

/-- The playlist-entry dict built for one non-falsy playlist child. -/
def entryToUnit (e : Entry) : PlaylistEntry :=
  { title := e.title.getD "Unknown", url := entrySourceRef e, id := e.id }

/-- The fallback entry `{'title': 'Unknown', 'url': url, 'id': None}`
installed when extraction raises. -/
def fallbackEntry (url : String) : PlaylistEntry :=
  { title := "Unknown", url := url, id := none }

/-- The `playlist_entries` list produced by the extraction block of
`_download_video` for a given url and extraction outcome:
on a raise, the single fallback entry; on falsy info, the empty list;
on a single item, one entry whose url is the original input url;
on a playlist, one entry per non-falsy child, in backend order. -/
def resolveEntries (url : String) (r : ExtractResult) : List PlaylistEntry :=
  match r with
  | .failure => [fallbackEntry url]
  | .noInfo => []
  | .single info =>
      [{ title := info.title.getD "Unknown", url := url, id := info.id }]
  | .playlist _ entries =>
      entries.filterMap (fun oe => oe.map entryToUnit)

/-! ## Progress normalization (`make_progress_hook`) -/

/-- The fields of a yt-dlp progress-hook dict `d` that the hook reads. -/
structure RawEvent where
  status : Option String
  total_bytes : Option Nat
  total_bytes_estimate : Option Nat
  downloaded_bytes : Option Nat
  speed : Option Nat
deriving DecidableEq, Repr

/-- `total = d.get('total_bytes') or d.get('total_bytes_estimate') or 0`. -/
def eventTotal (d : RawEvent) : Nat :=
  pyOrNat d.total_bytes (pyOrNat d.total_bytes_estimate 0)

/-- `downloaded = d.get('downloaded_bytes', 0)`. -/
def eventDownloaded (d : RawEvent) : Nat :=
  d.downloaded_bytes.getD 0

/-- `progress = (downloaded / total) * 100 if total else 0`: the percent
value the hook writes to `progress_var` on a `downloading` event.  The
division is evaluated only when `total` is truthy (nonzero). -/
def hookProgress (d : RawEvent) : ℚ :=
  let total := eventTotal d
  if total ≠ 0 then ((eventDownloaded d : ℚ) / (total : ℚ)) * 100 else 0

/-- One invocation of the hook body: if the stop flag is set the hook raises
`Exception("Download stopped by user")`; otherwise a `downloading` event
yields the percent written to the progress bar, and any other status
yields no progress update. -/
def hookRun (stopFlag : Bool) (d : RawEvent) : Except String (Option ℚ) :=
  if stopFlag then .error "Download stopped by user"
  else if d.status = some "downloading" then .ok (some (hookProgress d))
  else .ok none

/-- The sequence of percent values written to `progress_var` by the hook over
a sequence of raw events (stop flag never set): exactly the events with
status `downloading`, each mapped through the hook's percent computation. -/
def emittedProgress (events : List RawEvent) : List ℚ :=
  (events.filter (fun d => d.status = some "downloading")).map hookProgress

/-! ## Job driver (download loop and final status of `_download_video`) -/

/-- Result of one `ydl.download([entry['url']])` call: normal return, or an
exception whose `str(e)` is `msg`.  The hook's stop exception surfaces
here as an `err` whose message contains `Download stopped by user`. -/
inductive FetchResult
  | ok
  | err (msg : String)

/-- Per-unit fate implied by the loop's control flow: `completed_count` is
incremented exactly for `Succeeded` units; a non-stop exception leaves the
unit `Failed` and the loop continues; a unit reached with the stop flag
set, aborted by the stop exception, or never reached because the loop
broke, is `SkippedByCancellation`. -/
inductive UnitStatus
  | Succeeded
  | Failed
  | SkippedByCancellation
deriving DecidableEq, Repr

/-- The three final-status branches after the loop: `Cancelled` is
`"Download cancelled"`, `Completed` is `"Completed c/t downloads!"`,
`PartiallyFailed` is `"Completed c/t (some failed)"`. -/
inductive FinalStatus
  | Cancelled
  | Completed
  | PartiallyFailed
deriving DecidableEq, Repr

/-- The values the loop reads from the shared `self.stop_requested` flag:
`atTop i` is the value read by `if self.stop_requested: break` at the top
of iteration `i`, and `atEnd` the value read by the final-status
`if self.stop_requested:`.  The flag is set (never cleared) during a run,
so schedules of interest are monotone. -/
structure StopSchedule where
  atTop : Nat → Bool
  atEnd : Bool

/-- The download loop of `_download_video`, from unit index `i` over the
remaining entries: returns the number of completed downloads
(`completed_count` contribution) together with the per-unit fates.
Mirrors: break at top when the flag is set; on `ydl.download` success
increment `completed_count`; on an exception containing
`Download stopped by user` break; on any other exception continue. -/
def driveUnits (fetch : Nat → String → FetchResult) (stopTop : Nat → Bool) :
    Nat → List PlaylistEntry → Nat × List UnitStatus
  | _, [] => (0, [])
  | i, e :: rest =>
    if stopTop i then
      (0, .SkippedByCancellation :: rest.map fun _ => .SkippedByCancellation)
    else
      match fetch i e.url with
      | .ok =>
        let p := driveUnits fetch stopTop (i + 1) rest
        (p.1 + 1, .Succeeded :: p.2)
      | .err msg =>
        if pySubstr "Download stopped by user" msg then
          (0, .SkippedByCancellation :: rest.map fun _ => .SkippedByCancellation)
        else
          let p := driveUnits fetch stopTop (i + 1) rest
          (p.1, .Failed :: p.2)

/-- The final-status branch of `_download_video`:
`if self.stop_requested: ... elif completed_count == total_count: ...
else: ...`. -/
def finalStatus (stopEnd : Bool) (completed total : Nat) : FinalStatus :=
  if stopEnd then .Cancelled
  else if completed = total then .Completed
  else .PartiallyFailed

/-- Observable summary of one run of the download loop. -/
structure RunResult where
  totalUnits : Nat
  succeededCount : Nat
  outcomes : List UnitStatus
  cancelled : Bool
  status : FinalStatus
  progressSetTo100 : Bool
deriving DecidableEq, Repr

/-- One full run of the loop and final-status block of `_download_video`
over resolved entries, a backend fetch behaviour, and a stop-flag
schedule.  `progressSetTo100` records whether `self.progress_var.set(100)`
executed (only in the all-completed branch). -/
def runJob (entries : List PlaylistEntry) (fetch : Nat → String → FetchResult)
    (sched : StopSchedule) : RunResult :=
  let total := entries.length
  let p := driveUnits fetch sched.atTop 0 entries
  { totalUnits := total
    succeededCount := p.1
    outcomes := p.2
    cancelled := sched.atEnd
    status := finalStatus sched.atEnd p.1 total
    progressSetTo100 := !sched.atEnd && (p.1 == total) }

/-! ## Control surface (`_start_download`, `_stop_download`) -/

/-- The application state touched by `_start_download` / `_stop_download`:
the run-active flag, the shared stop flag, the URL entry text, the
progress bar value, the button label, and the status bar. -/
structure AppState where
  downloading : Bool
  stop_requested : Bool
  urlText : String
  progress : ℚ
  btnText : String
  statusText : String
  statusSev : String
deriving DecidableEq, Repr

/-- `_stop_download`: if a run is active, set the stop flag and show
`Stopping...`; otherwise do nothing. -/
def stopDownload (s : AppState) : AppState :=
  if s.downloading then
    { s with stop_requested := true,
             statusText := "Stopping...", statusSev := "downloading" }
  else s

/-- Result of one invocation of `_start_download`: the new state, whether a
worker thread was spawned, and whether the empty-URL error box was shown. -/
structure StartOutcome where
  state : AppState
  startedWorker : Bool
  showedError : Bool
deriving DecidableEq, Repr

/-- `_start_download`: when no run is active, validate the URL and spawn the
worker; when a run is active, the same invocation is `_stop_download`. -/
def startDownload (s : AppState) : StartOutcome :=
  if !s.downloading then
    if pyStrip s.urlText = "" then
      { state := s, startedWorker := false, showedError := true }
    else
      { state := { s with downloading := true, stop_requested := false,
                          btnText := "Stop" }
        startedWorker := true
        showedError := false }
  else
    { state := stopDownload s, startedWorker := false, showedError := false }

end MicroDL

namespace MicroDL

/-! ## General lemmas about the embedded driver and hook -/

/-- The completed-download count never exceeds the number of entries. -/
theorem driveUnits_fst_le (fetch : Nat → String → FetchResult)
    (stopTop : Nat → Bool) (i : Nat) (entries : List PlaylistEntry) :
    (driveUnits fetch stopTop i entries).1 ≤ entries.length := by
  induction entries generalizing i with
  | nil => simp [driveUnits]
  | cons e rest ih =>
    by_cases hs : stopTop i
    · simp [driveUnits, hs]
    · cases hf : fetch i e.url with
      | ok =>
        have h1 := ih (i + 1)
        simp only [driveUnits, hs, if_false, hf, List.length_cons, Bool.false_eq_true]
        omega
      | err msg =>
        have h1 := ih (i + 1)
        by_cases hm : pySubstr "Download stopped by user" msg
        · simp [driveUnits, hs, hf, hm]
        · simp only [driveUnits, hs, if_false, hf, hm, List.length_cons,
            Bool.false_eq_true]
          omega

/-- The hook's percent value is monotone in the downloaded bytes when the
two events report the same total. -/
theorem hookProgress_mono {a b : RawEvent} (ht : eventTotal a = eventTotal b)
    (hd : eventDownloaded a ≤ eventDownloaded b) :
    hookProgress a ≤ hookProgress b := by
  simp only [hookProgress, ht]
  by_cases h0 : eventTotal b = 0
  · simp [h0]
  · simp only [h0, ne_eq, not_false_eq_true, if_true]
    have hT : (0 : ℚ) < (eventTotal b : ℚ) := by
      exact_mod_cast Nat.pos_of_ne_zero h0
    have hd2 : (eventDownloaded a : ℚ) ≤ (eventDownloaded b : ℚ) := by
      exact_mod_cast hd
    gcongr

/-- The hook's percent value is never negative. -/
theorem hookProgress_nonneg (d : RawEvent) : 0 ≤ hookProgress d := by
  simp only [hookProgress]
  split
  · positivity
  · exact le_refl 0

/-! ## Claim theorems -/

/-- C1: on any backend fetch failure other than a stop request, the driver
records the unit as Failed and continues with the next unit; a 3-unit batch
whose middle unit fails with a non-stop backend error yields outcomes
[Succeeded, Failed, Succeeded], succeededCount 2, final status
PartiallyFailed, and cancelled = false. -/
theorem c1_failed_unit_continues :
    (∀ (fetch : Nat → String → FetchResult) (stopTop : Nat → Bool) (i : Nat)
        (e : PlaylistEntry) (rest : List PlaylistEntry) (msg : String),
        stopTop i = false → fetch i e.url = .err msg →
        pySubstr "Download stopped by user" msg = false →
        driveUnits fetch stopTop i (e :: rest) =
          ((driveUnits fetch stopTop (i + 1) rest).1,
            .Failed :: (driveUnits fetch stopTop (i + 1) rest).2)) ∧
    runJob [fallbackEntry "u1", fallbackEntry "u2", fallbackEntry "u3"]
        (fun i _ => if i = 1 then .err "HTTP Error 403: Forbidden" else .ok)
        ⟨fun _ => false, false⟩ =
      ⟨3, 2, [.Succeeded, .Failed, .Succeeded], false, .PartiallyFailed, false⟩ := by
  constructor
  · intro fetch stopTop i e rest msg h1 h2 h3
    simp [driveUnits, h1, h2, h3]
  · decide

theorem c1_failed_unit_continues_witness :
    driveUnits (fun _ _ => .err "boom") (fun _ => false) 0 [fallbackEntry "u"] =
      ((driveUnits (fun _ _ => .err "boom") (fun _ => false) 1 []).1,
        .Failed :: (driveUnits (fun _ _ => .err "boom") (fun _ => false) 1 []).2) :=
  c1_failed_unit_continues.1 _ _ 0 (fallbackEntry "u") [] "boom" rfl rfl (by decide)

/-- C2: once the stop flag is observed — read true at the top of a unit
iteration, or surfacing as a stop exception out of a fetch — the current and
all remaining units are recorded SkippedByCancellation and the loop exits;
a stop observed after 2 of 5 units succeed yields outcomes
[Succeeded, Succeeded, SkippedByCancellation, SkippedByCancellation,
SkippedByCancellation] and cancelled = true. -/
theorem c2_cancellation_skips_remaining :
    (∀ (fetch : Nat → String → FetchResult) (stopTop : Nat → Bool) (i : Nat)
        (e : PlaylistEntry) (rest : List PlaylistEntry),
        stopTop i = true →
        driveUnits fetch stopTop i (e :: rest) =
          (0, .SkippedByCancellation ::
                rest.map fun _ => .SkippedByCancellation)) ∧
    (∀ (fetch : Nat → String → FetchResult) (stopTop : Nat → Bool) (i : Nat)
        (e : PlaylistEntry) (rest : List PlaylistEntry) (msg : String),
        stopTop i = false → fetch i e.url = .err msg →
        pySubstr "Download stopped by user" msg = true →
        driveUnits fetch stopTop i (e :: rest) =
          (0, .SkippedByCancellation ::
                rest.map fun _ => .SkippedByCancellation)) ∧
    runJob [fallbackEntry "a", fallbackEntry "b", fallbackEntry "c",
        fallbackEntry "d", fallbackEntry "e"]
        (fun _ _ => .ok) ⟨fun i => decide (2 ≤ i), true⟩ =
      ⟨5, 2, [.Succeeded, .Succeeded, .SkippedByCancellation,
          .SkippedByCancellation, .SkippedByCancellation],
        true, .Cancelled, false⟩ := by
  refine ⟨?_, ?_, by decide⟩
  · intro fetch stopTop i e rest h1
    simp [driveUnits, h1]
  · intro fetch stopTop i e rest msg h1 h2 h3
    simp [driveUnits, h1, h2, h3]

theorem c2_cancellation_skips_remaining_witness :
    driveUnits (fun _ _ => .ok) (fun _ => true) 0
        [fallbackEntry "u", fallbackEntry "v"] =
      (0, .SkippedByCancellation :: [fallbackEntry "v"].map
            fun _ => .SkippedByCancellation) :=
  c2_cancellation_skips_remaining.1 _ _ 0 (fallbackEntry "u") [fallbackEntry "v"] rfl

/-- C3 counterexample: a single-unit run in which every top-of-loop stop
check reads false and the fetch succeeds, but the shared flag reads true at
the final status check (a stop requested during or just after the last
fetch, too late to skip anything): every unit was attempted and succeeded,
yet the final status is Cancelled, where the claim requires Completed. -/
theorem c3_counterexample :
    (runJob [fallbackEntry "u"] (fun _ _ => .ok) ⟨fun _ => false, true⟩).outcomes =
        [.Succeeded] ∧
    (runJob [fallbackEntry "u"] (fun _ _ => .ok)
        ⟨fun _ => false, true⟩).succeededCount =
      (runJob [fallbackEntry "u"] (fun _ _ => .ok) ⟨fun _ => false, true⟩).totalUnits ∧
    (runJob [fallbackEntry "u"] (fun _ _ => .ok) ⟨fun _ => false, true⟩).status =
        .Cancelled := by
  decide

/-- C3 amended: the final status is exactly one of the three distinct
outcomes Cancelled, Completed, PartiallyFailed; it is Cancelled iff the stop
flag reads true at the final check (not iff a stop was requested before all
units were attempted); Completed iff the flag reads false and succeededCount
equals totalUnits; PartiallyFailed iff the flag reads false and
succeededCount < totalUnits. -/
theorem c3_final_status_trichotomy (entries : List PlaylistEntry)
    (fetch : Nat → String → FetchResult) (sched : StopSchedule) :
    (runJob entries fetch sched).succeededCount ≤
        (runJob entries fetch sched).totalUnits ∧
    ((runJob entries fetch sched).status = .Cancelled ∨
      (runJob entries fetch sched).status = .Completed ∨
      (runJob entries fetch sched).status = .PartiallyFailed) ∧
    ((runJob entries fetch sched).status = .Cancelled ↔ sched.atEnd = true) ∧
    ((runJob entries fetch sched).status = .Completed ↔
      sched.atEnd = false ∧
        (runJob entries fetch sched).succeededCount =
          (runJob entries fetch sched).totalUnits) ∧
    ((runJob entries fetch sched).status = .PartiallyFailed ↔
      sched.atEnd = false ∧
        (runJob entries fetch sched).succeededCount <
          (runJob entries fetch sched).totalUnits) := by
  have hle := driveUnits_fst_le fetch sched.atTop 0 entries
  cases hE : sched.atEnd with
  | true =>
    by_cases hc : (driveUnits fetch sched.atTop 0 entries).1 = entries.length <;>
      simp [runJob, finalStatus, hE, hc, hle]
  | false =>
    by_cases hc : (driveUnits fetch sched.atTop 0 entries).1 = entries.length
    · simp [runJob, finalStatus, hE, hc, hle]
    · simp [runJob, finalStatus, hE, hc, hle]
      omega

/-- C4 counterexample: with a run active (downloading true, stop flag
clear), invoking the start operation does not leave the active run's state
untouched: it sets the stop flag, so the invocation is a stop request rather
than an inert RunAlreadyInProgress rejection. -/
theorem c4_counterexample :
    (startDownload ⟨true, false, "https://example.com/v", 42, "Stop",
        "Downloading 37%", "downloading"⟩).state.stop_requested = true ∧
    (startDownload ⟨true, false, "https://example.com/v", 42, "Stop",
        "Downloading 37%", "downloading"⟩).state ≠
      ⟨true, false, "https://example.com/v", 42, "Stop",
        "Downloading 37%", "downloading"⟩ := by
  decide

/-- C4 amended: invoking the start operation while a run is active starts
no new run — no worker is spawned, nothing is queued or parallelized — and
leaves the downloading flag, URL, progress and button label unchanged; but
instead of an inert rejection it acts as a stop request, setting the stop
flag and showing Stopping in the status bar. -/
theorem c4_start_while_active (s : AppState) (h : s.downloading = true) :
    startDownload s =
      ⟨{ s with stop_requested := true,
                statusText := "Stopping...", statusSev := "downloading" },
        false, false⟩ := by
  simp [startDownload, stopDownload, h]

theorem c4_start_while_active_witness :
    startDownload ⟨true, false, "u", 7, "Stop", "t", "downloading"⟩ =
      ⟨⟨true, true, "u", 7, "Stop", "Stopping...", "downloading"⟩, false, false⟩ :=
  c4_start_while_active ⟨true, false, "u", 7, "Stop", "t", "downloading"⟩ rfl

/-- C5 counterexample: the label 731q lies outside the enumerated video
set, yet the format selector produces a constraint string embedding the
token verbatim instead of failing with InvalidQuality. -/
theorem c5_counterexample :
    getFormatString "video" "731q" =
      some ("bestvideo[height<=731q]+bestaudio/best[height<=731q]" ++
        "/bestvideo+bestaudio/best") := by
  decide

/-- C5 amended: for every enumerated (mediaKind, qualityLabel) pair the
selector returns a constraint whose kind matches the media kind; but labels
outside the set are not rejected with InvalidQuality: a non-blank invalid
label still produces a constraint string, and a blank label raises
IndexError — no validation exists in the selector (the GUI's read-only
dropdown is the only guard). -/
theorem c5_format_selector :
    (∀ q ∈ videoQualities,
        (getFormatString "video" q).bind constraintKind = some "video") ∧
    (∀ q ∈ audioQualities,
        (getFormatString "audio" q).bind constraintKind = some "audio") ∧
    (getFormatString "video" "731q").isSome = true ∧
    getFormatString "audio" "" = none := by
  decide

theorem c5_format_selector_witness :
    (getFormatString "video" "2160p (4K)").bind constraintKind = some "video" ∧
    (getFormatString "audio" "128kbps (Low)").bind constraintKind = some "audio" :=
  ⟨c5_format_selector.1 "2160p (4K)" (by decide),
   c5_format_selector.2.1 "128kbps (Low)" (by decide)⟩

/-- C6 counterexample: an in-progress event reporting 200 bytes downloaded
against a reported total of 100 yields percent 200 — fractionComplete 2,
outside [0,1]. -/
theorem c6_counterexample :
    hookProgress ⟨some "downloading", some 100, none, some 200, none⟩ = 200 ∧
    ¬ (hookProgress ⟨some "downloading", some 100, none, some 200, none⟩ / 100 ≤ 1) := by
  norm_num [hookProgress, eventTotal, eventDownloaded, pyOrNat]

/-- C6 amended: for an in-progress event the percent written to the
progress bar is 100 × downloadedBytes / totalBytes when the total resolves
nonzero and 0 otherwise (total unknown or zero), the division being guarded
by the truthiness test so it never divides by zero; the value is
nonnegative, and the fraction (percent / 100) is at most 1 whenever
downloadedBytes ≤ totalBytes — but it exceeds 1 when the backend reports
more downloaded bytes than its estimated total. -/
theorem c6_progress_normalization (d : RawEvent) :
    (eventTotal d ≠ 0 →
        hookProgress d = (eventDownloaded d : ℚ) / (eventTotal d : ℚ) * 100) ∧
    (eventTotal d = 0 → hookProgress d = 0) ∧
    0 ≤ hookProgress d ∧
    (eventDownloaded d ≤ eventTotal d → hookProgress d / 100 ≤ 1) := by
  refine ⟨fun h => by simp [hookProgress, h], fun h => by simp [hookProgress, h],
    hookProgress_nonneg d, fun h => ?_⟩
  by_cases h0 : eventTotal d = 0
  · simp [hookProgress, h0]
  · have hT : (0 : ℚ) < (eventTotal d : ℚ) := by
      exact_mod_cast Nat.pos_of_ne_zero h0
    have hd2 : (eventDownloaded d : ℚ) ≤ (eventTotal d : ℚ) := by exact_mod_cast h
    simp only [hookProgress, h0, ne_eq, not_false_eq_true, if_true]
    rw [mul_div_assoc]
    norm_num
    exact div_le_one_of_le₀ hd2 (le_of_lt hT)

theorem c6_progress_normalization_witness :
    hookProgress ⟨some "downloading", some 100, none, some 50, none⟩ =
      (eventDownloaded ⟨some "downloading", some 100, none, some 50, none⟩ : ℚ) /
        (eventTotal ⟨some "downloading", some 100, none, some 50, none⟩ : ℚ) * 100 ∧
    hookProgress ⟨some "downloading", none, none, some 50, none⟩ = 0 ∧
    hookProgress ⟨some "downloading", some 100, none, some 50, none⟩ / 100 ≤ 1 :=
  ⟨(c6_progress_normalization _).1 (by decide),
   (c6_progress_normalization _).2.1 (by decide),
   (c6_progress_normalization _).2.2.2 (by decide)⟩

/-- C7: when the flat-listing call fails, resolution returns the
single-element fallback sequence — one unit with title Unknown and
sourceRef equal to the submitted url — instead of propagating the error, and the job driver runs that one-unit batch exactly
as it runs the same explicitly-given singleton batch. -/
theorem c7_resolution_fallback (url : String)
    (fetch : Nat → String → FetchResult) (sched : StopSchedule) :
    resolveEntries url .failure = [fallbackEntry url] ∧
    runJob (resolveEntries url .failure) fetch sched =
      runJob [fallbackEntry url] fetch sched ∧
    (runJob (resolveEntries url .failure) fetch sched).totalUnits = 1 :=
  ⟨rfl, rfl, rfl⟩

/-- C8 counterexample: two in-progress events with non-decreasing
downloaded bytes (50 then 60) but a growing reported total (100 then 200)
emit percents 50 then 30 — a strictly decreasing progress sequence, so the
claim fails for event sequences whose reported total varies. -/
theorem c8_counterexample :
    (List.map eventDownloaded
        [⟨some "downloading", some 100, none, some 50, none⟩,
         ⟨some "downloading", some 200, none, some 60, none⟩]).Pairwise
      (fun a b => a ≤ b) ∧
    ¬ (emittedProgress
        [⟨some "downloading", some 100, none, some 50, none⟩,
         ⟨some "downloading", some 200, none, some 60, none⟩]).Pairwise
      (fun a b : ℚ => a ≤ b) := by
  have h : emittedProgress
      [⟨some "downloading", some 100, none, some 50, none⟩,
       ⟨some "downloading", some 200, none, some 60, none⟩] = [50, 30] := by
    norm_num +decide [emittedProgress, hookProgress, eventTotal, eventDownloaded,
      pyOrNat, List.filter]
  rw [h]
  refine ⟨by decide, fun hp => ?_⟩
  have h50 : (50 : ℚ) ≤ 30 := List.rel_of_pairwise_cons hp (by simp)
  norm_num at h50

/-- C8 amended: for any backend event sequence with monotonically
non-decreasing downloadedBytes in which every event reports the same total,
the emitted progress values (in emission order, while the raw status is
downloading) are monotonically non-decreasing. -/
theorem c8_progress_monotone (events : List RawEvent) (T : Nat)
    (hT : ∀ e ∈ events, eventTotal e = T)
    (hMono : (events.map eventDownloaded).Pairwise (fun a b => a ≤ b)) :
    (emittedProgress events).Pairwise (fun a b : ℚ => a ≤ b) := by
  unfold emittedProgress
  rw [List.pairwise_map] at hMono ⊢
  have h2 := hMono.filter (fun d => decide (d.status = some "downloading"))
  refine h2.imp_of_mem ?_
  intro a b ha hb hab
  exact hookProgress_mono
    ((hT a (List.mem_of_mem_filter ha)).trans (hT b (List.mem_of_mem_filter hb)).symm)
    hab

theorem c8_progress_monotone_witness :
    (emittedProgress
        [⟨some "downloading", some 100, none, some 50, none⟩,
         ⟨some "downloading", some 100, none, some 80, none⟩]).Pairwise
      (fun a b : ℚ => a ≤ b) :=
  c8_progress_monotone
    [⟨some "downloading", some 100, none, some 50, none⟩,
     ⟨some "downloading", some 100, none, some 80, none⟩] 100
    (by decide) (by decide)

/-- Auxiliary counting lemma for C9. -/
theorem length_filterMap_optionMap (f : Entry → PlaylistEntry)
    (l : List (Option Entry)) :
    (l.filterMap (fun oe => oe.map f)).length = (l.filter Option.isSome).length := by
  induction l with
  | nil => rfl
  | cons h t ih => cases h <;> simp [List.filterMap_cons, List.filter_cons, ih]

/-- C9: falsy backend entries are silently dropped during resolution: the
resolved sequence is exactly the filterMap of the listing, containing one
unit per non-null entry in backend order with indices compacted; its length
equals the count of non-null entries, and a listing containing a null entry
resolves to strictly fewer units than the backend reported. -/
theorem c9_null_entries_dropped (url : String) (t : Option String)
    (entries : List (Option Entry)) :
    resolveEntries url (.playlist t entries) =
      entries.filterMap (fun oe => oe.map entryToUnit) ∧
    (resolveEntries url (.playlist t entries)).length =
      (entries.filter Option.isSome).length ∧
    (resolveEntries url (.playlist t (none :: entries))).length <
      (none :: entries).length := by
  refine ⟨rfl, length_filterMap_optionMap entryToUnit entries, ?_⟩
  have h1 : (resolveEntries url (.playlist t (none :: entries))).length =
      (entries.filter Option.isSome).length := by
    simpa [resolveEntries, List.filterMap_cons, List.filter_cons]
      using length_filterMap_optionMap entryToUnit entries
  rw [h1]
  have h2 := List.length_filter_le Option.isSome entries
  simp only [List.length_cons]
  omega

/-- C10: when flat listing returns without raising but yields no usable
info object, resolution produces zero units rather than the single-unit
fallback; with no stop requested, the run terminates immediately as a full
success — totalUnits 0, succeededCount 0, status Completed, progress set to
100 — and the result does not depend on the fetch backend, which is never
consulted. -/
theorem c10_empty_resolution_success (url : String)
    (fetch altFetch : Nat → String → FetchResult) (sched : StopSchedule)
    (h : sched.atEnd = false) :
    resolveEntries url .noInfo = [] ∧
    runJob (resolveEntries url .noInfo) fetch sched =
      ⟨0, 0, [], false, .Completed, true⟩ ∧
    runJob [] fetch sched = runJob [] altFetch sched := by
  refine ⟨rfl, ?_, rfl⟩
  simp [resolveEntries, runJob, driveUnits, finalStatus, h]

theorem c10_empty_resolution_success_witness :
    resolveEntries "x" .noInfo = [] ∧
    runJob (resolveEntries "x" .noInfo) (fun _ _ => .ok) ⟨fun _ => false, false⟩ =
      ⟨0, 0, [], false, .Completed, true⟩ :=
  ⟨(c10_empty_resolution_success "x" (fun _ _ => .ok) (fun _ _ => .ok)
      ⟨fun _ => false, false⟩ rfl).1,
   (c10_empty_resolution_success "x" (fun _ _ => .ok) (fun _ _ => .ok)
      ⟨fun _ => false, false⟩ rfl).2.1⟩

end MicroDL
